import Mathlib

/-!
# Verification of the PiGenny generator control system

Shallow embedding of the core of `gen_server.py`, `gen_client.py` and
`monitor.py` from the pigenny repository, together with theorems settling
the specification claims about it.

Conventions of the embedding:
* machine bytes are `Nat`, input read results are `Int` (the code uses `-1`
  as the distinguished read-failure value);
* hardware / network / filesystem effects are captured by an explicit
  environment record (one entry per possible outcome of each external call)
  and by a trace of emitted effects;
* exceptions raised by Python code are modelled by `Option`-valued outcomes
  (`none` = the call raised) and, for the start sequence, by an injection
  point `raiseAt` naming the atomic action at which an unexpected exception
  fires;
* `time.sleep` durations are recorded in the trace in milliseconds
  (the source uses seconds as floats: 1, 0.5, 10, 2, 4, 60).
-/

namespace GenServer

/-- Environment of one `gen_server.py` hardware interaction session.

* `i2cAvailable` — the module-level `I2C_AVAILABLE` flag (smbus import ok);
* `busRead n` — result of the `n`-th `BUS.read_byte_data(MODIO_ADDR, REG_INPUT)`
  call: `some v` the byte read, `none` the call raised;
* `busWriteOk n` — whether the `n`-th `BUS.write_byte_data(MODIO_ADDR, REG_RELAY, _)`
  call succeeds (`false` = it raised);
* `raiseAt` — `some k` injects an unexpected exception (anything not caught
  inside `read_inputs`/`set_relays`, e.g. from `log` or `time.sleep`) right
  before the `k`-th atomic action of the `try:` block of `do_start_sequence`. -/
structure Env where
  i2cAvailable : Bool
  busRead : Nat → Option Nat
  busWriteOk : Nat → Bool
  raiseAt : Option Nat

/-- The module-level mutable state of `gen_server.py`:
`current_relay_state`, `generator_running`, `start_in_progress`. -/
structure SrvState where
  current_relay_state : Nat
  generator_running : Bool
  start_in_progress : Bool
deriving DecidableEq, Repr

/-- Whether the `n`-th relay write succeeds.  When I2C is unavailable the
source simulates the write and reports success. -/
def writeOkAt (e : Env) (n : Nat) : Bool :=
  !e.i2cAvailable || e.busWriteOk n

/-- `read_inputs()`: returns `0` when I2C is unavailable (simulated all-off),
the byte read on success, and `-1` when the bus read raises. -/
def read_inputs (e : Env) (readIdx : Nat) : Int :=
  if !e.i2cAvailable then 0
  else match e.busRead readIdx with
       | some v => (v : Int)
       | none => -1

/-- `set_relays(relay_byte)`: on a successful write (or in simulation) it
updates `current_relay_state` and returns `True`; when the bus write raises
it returns `False` and leaves `current_relay_state` unchanged. -/
def set_relays (e : Env) (writeIdx : Nat) (b : Nat) (st : SrvState) :
    Bool × SrvState :=
  let ok := writeOkAt e writeIdx
  (ok, if ok then { st with current_relay_state := b } else st)

/-- One observable hardware effect of the server: a relay write (with its
success flag), a sleep (milliseconds), or an input read (with its result). -/
inductive Eff
  | write (b : Nat) (ok : Bool)
  | sleepMs (n : Nat)
  | read (v : Int)
deriving DecidableEq, Repr

/-- Result of `do_start_sequence`, one constructor per `return` site. -/
inductive StartRes
  | ok
  | errAlreadyInProgress
  | errAlreadyRunning
  | errFailedToStart (status : Int)
  | errException
deriving DecidableEq, Repr

/-- The body of the `try:` block of `do_start_sequence`, as a small
command tree: relay writes (whose boolean result the source ignores),
sleeps, input reads branching on the value read, and returns that apply
the source's final flag updates to the server state. -/
inductive Prog
  | ret (r : StartRes) (f : SrvState → SrvState)
  | write (b : Nat) (k : Prog)
  | sleepMs (n : Nat) (k : Prog)
  | read (k : Int → Prog)

/-- The `except Exception` handler of `do_start_sequence`:
`set_relays(0b0000)`, `start_in_progress = False`, return the error. -/
def handlerExit (e : Env) (writeIdx : Nat) (st : SrvState) (tr : List Eff) :
    StartRes × SrvState × List Eff :=
  let (ok, st') := set_relays e writeIdx 0 st
  (.errException, { st' with start_in_progress := false }, tr ++ [.write 0 ok])

/-- Runs a `Prog` under environment `e`, threading the action counter `a`
(for exception injection), the read counter `ri`, the write counter `wi`,
the server state and the effect trace.  An injected exception transfers
control to `handlerExit`. -/
def runProg (e : Env) :
    Prog → Nat → Nat → Nat → SrvState → List Eff →
    StartRes × SrvState × List Eff
  | .ret r f, _, _, _, st, tr => (r, f st, tr)
  | .write b k, a, ri, wi, st, tr =>
      if e.raiseAt = some a then handlerExit e wi st tr
      else
        let (ok, st') := set_relays e wi b st
        runProg e k (a + 1) ri (wi + 1) st' (tr ++ [.write b ok])
  | .sleepMs n k, a, ri, wi, st, tr =>
      if e.raiseAt = some a then handlerExit e wi st tr
      else runProg e k (a + 1) ri wi st (tr ++ [.sleepMs n])
  | .read k, a, ri, wi, st, tr =>
      if e.raiseAt = some a then handlerExit e wi st tr
      else
        let v := read_inputs e ri
        runProg e (k v) (a + 1) (ri + 1) wi st (tr ++ [.read v])

/-- The fixed start timeline of `do_start_sequence` (inside the `try:`):
initial read with the already-running early return, the five phases
(`0b0000` 1s, `0b1000` 0.5s, `0b1001` 10s, `0b1101` 2s, `0b1000` 4s), the
post-crank read, and the success (60s warm-up then `0b1010`) / failure
(`0b0000`, report observed status) branch. -/
def startProg : Prog :=
  .read fun v0 =>
    if v0 = 3 then
      .ret .errAlreadyRunning (fun st => { st with start_in_progress := false })
    else
      .write 0 <| .sleepMs 1000 <|
      .write 8 <| .sleepMs 500 <|
      .write 9 <| .sleepMs 10000 <|
      .write 13 <| .sleepMs 2000 <|
      .write 8 <| .sleepMs 4000 <|
      .read fun v1 =>
        if v1 = 3 then
          .sleepMs 60000 <| .write 10 <|
          .ret .ok (fun st =>
            { st with generator_running := true, start_in_progress := false })
        else
          .write 0 <|
          .ret (.errFailedToStart v1) (fun st =>
            { st with generator_running := false, start_in_progress := false })

/-- `do_start_sequence()`: rejects immediately (no hardware access) when a
start is already in progress, otherwise sets the in-progress flag and runs
the start timeline. -/
def do_start_sequence (e : Env) (st : SrvState) :
    StartRes × SrvState × List Eff :=
  if st.start_in_progress then (.errAlreadyInProgress, st, [])
  else runProg e startProg 0 0 0 { st with start_in_progress := true } []

/-- `do_stop()`: writes all relays off (ignoring the write's success),
clears the cached running flag, and always answers `OK: Generator stopped`. -/
def do_stop (e : Env) (writeIdx : Nat) (st : SrvState) :
    String × SrvState × List Eff :=
  let (ok, st') := set_relays e writeIdx 0 st
  ("OK: Generator stopped", { st' with generator_running := false },
   [.write 0 ok])

/-- The fields of the `get_status()` report that the claims are about. -/
structure StatusReport where
  inputsVal : Int
  relays : Nat
  running : String
  startInProgress : String
deriving DecidableEq, Repr

/-- `get_status()`: performs a fresh `read_inputs()` and derives the
`RUNNING` line from `inputs == 3`; relays and the in-progress flag are
reported from the stored state. -/
def get_status (e : Env) (readIdx : Nat) (st : SrvState) : StatusReport :=
  let inputs := read_inputs e readIdx
  { inputsVal := inputs
    relays := st.current_relay_state
    running := if inputs = 3 then "YES" else "NO"
    startInProgress := if st.start_in_progress then "YES" else "NO" }

end GenServer

namespace GenClient

/-- The `for i in range(debounce_checks - 1)` loop of
`GeneratorClient.is_running`: `statuses n` tells whether the `n`-th STATUS
response of this call contains `RUNNING: YES`; `i` is the index of the next
status query, `remaining` the number of loop iterations left.  Each
iteration sleeps, re-queries, returns `True` on a running reading, and
otherwise continues; after the last iteration the loop falls through to
`return False`. -/
def debounce_loop (statuses : Nat → Bool) : Nat → Nat → Bool
  | _, 0 => false
  | i, r + 1 => if statuses i then true else debounce_loop statuses (i + 1) r

/-- `GeneratorClient.is_running(debounce_checks)`: queries STATUS once and
returns `True` immediately on a running reading; otherwise debounces with
up to `debounce_checks - 1` further queries and returns `False` only when
every reading said not running. -/
def is_running (debounce_checks : Nat) (statuses : Nat → Bool) : Bool :=
  if statuses 0 then true
  else debounce_loop statuses 1 (debounce_checks - 1)

end GenClient

namespace Monitor

/-- The `PiGennyMonitor` state constants. -/
inductive MState
  | idle | starting | running | stopping | errorRecovery | error
deriving DecidableEq, Repr

/-- The configuration entries of `CONFIG` that feed the state machine. -/
structure Config where
  soc_start_threshold : Nat
  soc_stop_threshold : Nat
  error_recovery_wait : Nat
  generator_max_runtime : Nat
  max_start_attempts : Nat
deriving DecidableEq, Repr

/-- The control-relevant mutable fields of `PiGennyMonitor`.
Timestamps are seconds (`datetime.now()` values).  The logging-only fields
(`last_soc`, `last_voltage`, `last_log_time`, `last_health_check_time`) do
not feed the state machine and are omitted. -/
structure MonState where
  state : MState
  start_attempts : Nat
  error_recovery_started_at : Option Nat
  generator_started_at : Option Nat
  generator_stopped_at : Option Nat
  manual_mode : Bool
deriving DecidableEq, Repr

/-- A command the supervisor issues during one cycle: a generator START or
STOP over the client, the removal of the force-stop file, or the STATUS
query of the STOPPING verification step. -/
inductive Cmd
  | start | stop | removeForceStop | statusQuery
deriving DecidableEq, Repr

/-- Outcomes of the external calls one `run_once` cycle can make.

* `now` — `datetime.now()` during this cycle, in seconds;
* `inverterData` — `some soc` when `inverter.read_all()` succeeds (only the
  SOC feeds the state machine), `none` when it returns `None`;
* `force_charge` / `force_stop` — existence of the two override files;
* `startResult` — `generator.start()`: `some true` a response starting with
  `OK:`, `some false` any other response, `none` the call raised (the source
  handles the last two identically);
* `stopExn` — whether `generator.stop()` raised;
* `isRunningResult` — `generator.is_running()`: `some b` the debounced
  result, `none` the call raised;
* `statusExn` — whether the `generator.status()` call of the STOPPING
  branch raised (all its outcomes lead to the same state updates). -/
structure Env where
  now : Nat
  inverterData : Option Nat
  force_charge : Bool
  force_stop : Bool
  startResult : Option Bool
  stopExn : Bool
  isRunningResult : Option Bool
  statusExn : Bool
deriving DecidableEq, Repr

/-- `PiGennyMonitor.is_generator_running()`: the client's debounced result,
or `False` when the client query raised. -/
def is_generator_running (e : Env) : Bool :=
  match e.isRunningResult with
  | some b => b
  | none => false

/-- `PiGennyMonitor.start_generator()`: sets STARTING, issues START; on an
`OK:` response moves to RUNNING, records the start time and resets the
failure counter; on any other response or an exception increments the
counter and moves to ERROR when it has reached `max_start_attempts`, else
back to IDLE.  Returns the success flag, the new state and the commands
issued. -/
def start_generator (cfg : Config) (e : Env) (st : MonState) :
    Bool × MonState × List Cmd :=
  match e.startResult with
  | some true =>
      (true,
       { st with state := .running, generator_started_at := some e.now,
                 start_attempts := 0 },
       [.start])
  | _ =>
      let a := st.start_attempts + 1
      (false,
       { st with start_attempts := a,
                 state := if cfg.max_start_attempts ≤ a then .error
                          else .idle },
       [.start])

/-- `PiGennyMonitor.stop_generator()`: sets STOPPING, issues STOP, and —
whether the call succeeded or raised — moves to IDLE, records the stop time
and clears the start time. -/
def stop_generator (e : Env) (st : MonState) : Bool × MonState × List Cmd :=
  (!e.stopExn,
   { st with state := .idle, generator_stopped_at := some e.now,
             generator_started_at := none },
   [.stop])

/-- `PiGennyMonitor.check_error_recovery_wait()`: vacuously true when no
recovery window is open, otherwise true once the elapsed time reaches
`error_recovery_wait`. -/
def check_error_recovery_wait (cfg : Config) (e : Env) (st : MonState) :
    Bool :=
  match st.error_recovery_started_at with
  | none => true
  | some t => (cfg.error_recovery_wait : Int) ≤ (e.now : Int) - (t : Int)

/-- `PiGennyMonitor.check_max_runtime()`: false with no recorded start time,
otherwise true once the elapsed runtime reaches `generator_max_runtime`. -/
def check_max_runtime (cfg : Config) (e : Env) (st : MonState) : Bool :=
  match st.generator_started_at with
  | none => false
  | some t => (cfg.generator_max_runtime : Int) ≤ (e.now : Int) - (t : Int)

/-- One `PiGennyMonitor.run_once()` cycle: the control state machine of
`monitor.py` (the CSV-logging and health-probe side effects, which touch no
control state, are omitted).  A failed inverter read returns early with no
state change.  Returns the new state and the commands issued this cycle. -/
def run_once (cfg : Config) (e : Env) (st : MonState) :
    MonState × List Cmd :=
  match e.inverterData with
  | none => (st, [])
  | some soc =>
    match st.state with
    | .idle =>
        if e.force_charge then
          let (_, st', cmds) := start_generator cfg e
            { st with manual_mode := true }
          (st', cmds)
        else if soc < cfg.soc_start_threshold then
          let (_, st', cmds) := start_generator cfg e
            { st with manual_mode := false }
          (st', cmds)
        else (st, [])
    | .running =>
        if e.force_stop then
          let (_, st', cmds) := stop_generator e
            { st with manual_mode := false }
          (st', cmds ++ [.removeForceStop])
        else if st.manual_mode && !e.force_charge then
          let (_, st', cmds) := stop_generator e
            { st with manual_mode := false }
          (st', cmds)
        else if !is_generator_running e then
          ({ st with state := .errorRecovery,
                     error_recovery_started_at := some e.now,
                     generator_started_at := none,
                     manual_mode := false },
           [.stop])
        else if !st.manual_mode && cfg.soc_stop_threshold ≤ soc then
          let (_, st', cmds) := stop_generator e st
          (st', cmds)
        else if check_max_runtime cfg e st then
          let (_, st', cmds) := stop_generator e
            { st with manual_mode := false }
          (st', cmds)
        else (st, [])
    | .stopping =>
        let st' := { st with state := .idle }
        (if st.generator_stopped_at = none then
           { st' with generator_stopped_at := some e.now,
                      generator_started_at := none }
         else st',
         [.statusQuery])
    | .errorRecovery =>
        if cfg.max_start_attempts ≤ st.start_attempts then
          if check_error_recovery_wait cfg e st then
            ({ st with start_attempts := 0,
                       error_recovery_started_at := none }, [])
          else (st, [])
        else if soc < cfg.soc_start_threshold then
          let (ok, st', cmds) := start_generator cfg e st
          if ok then
            ({ st' with error_recovery_started_at := none }, cmds)
          else if cfg.max_start_attempts ≤ st'.start_attempts then
            ({ st' with error_recovery_started_at := some e.now }, cmds)
          else (st', cmds)
        else
          ({ st with state := .idle, start_attempts := 0,
                     error_recovery_started_at := none }, [])
    | .starting => (st, [])
    | .error => (st, [])

end Monitor

namespace GenServer

/-- A start-sequence command tree none of whose return leaves carries the
exception result (so `errException` can only come from the handler). -/
def NoExnRet : Prog → Prop
  | .ret r _ => r ≠ .errException
  | .write _ k => NoExnRet k
  | .sleepMs _ k => NoExnRet k
  | .read k => ∀ v, NoExnRet (k v)

end GenServer

/-! Concrete instances used by witnesses and counterexamples. -/

/-- The `CONFIG` defaults of `monitor.py` that feed the state machine. -/
def cfgDefault : Monitor.Config :=
  { soc_start_threshold := 25
    soc_stop_threshold := 80
    error_recovery_wait := 3600
    generator_max_runtime := 14400
    max_start_attempts := 3 }

/-- A cycle with low SOC, no override files, and a failing START response. -/
def envStartFails : Monitor.Env :=
  { now := 1000, inverterData := some 20, force_charge := false
    force_stop := false, startResult := some false, stopExn := false
    isRunningResult := some true, statusExn := false }

/-- Supervisor in IDLE after one failed start attempt. -/
def stOneFailure : Monitor.MonState :=
  { state := .idle, start_attempts := 1, error_recovery_started_at := none
    generator_started_at := none, generator_stopped_at := none
    manual_mode := false }

/-- Supervisor in IDLE after two failed start attempts. -/
def stTwoFailures : Monitor.MonState :=
  { state := .idle, start_attempts := 2, error_recovery_started_at := none
    generator_started_at := none, generator_stopped_at := none
    manual_mode := false }

/-- The state reached after the third consecutive failed start. -/
def stLegacyError : Monitor.MonState :=
  { state := .error, start_attempts := 3, error_recovery_started_at := none
    generator_started_at := none, generator_stopped_at := none
    manual_mode := false }

/-- A much later cycle (any backoff window has long elapsed), SOC still low. -/
def envMuchLater : Monitor.Env :=
  { envStartFails with now := 999999 }

/-- RUNNING cycle in which every stop condition holds at once: the
force-stop file is present, manual mode is about to be cancelled
(force-charge absent), the running check raises, SOC is above the stop
threshold, and the maximum runtime is exceeded. -/
def envAllStopConds : Monitor.Env :=
  { now := 999999, inverterData := some 100, force_charge := false
    force_stop := true, startResult := some true, stopExn := false
    isRunningResult := none, statusExn := false }

/-- Supervisor RUNNING in manual mode since time 0. -/
def stRunningManual : Monitor.MonState :=
  { state := .running, start_attempts := 0, error_recovery_started_at := none
    generator_started_at := some 0, generator_stopped_at := none
    manual_mode := true }

/-- RUNNING cycle whose client running-query raises; no override files. -/
def envRunningQueryRaises : Monitor.Env :=
  { now := 5000, inverterData := some 50, force_charge := false
    force_stop := false, startResult := some true, stopExn := false
    isRunningResult := none, statusExn := false }

/-- Supervisor RUNNING (not manual) with one prior failed attempt. -/
def stRunningAuto : Monitor.MonState :=
  { state := .running, start_attempts := 1, error_recovery_started_at := none
    generator_started_at := some 0, generator_stopped_at := none
    manual_mode := false }

/-- Server session with relays off and no start in progress. -/
def stSrvIdle : GenServer.SrvState :=
  { current_relay_state := 0, generator_running := false
    start_in_progress := false }

/-- Server session with a start already in progress. -/
def stSrvBusy : GenServer.SrvState :=
  { current_relay_state := 0, generator_running := false
    start_in_progress := true }

/-- Healthy bus, engine not running at first, running after the crank:
reads return 0 then 3, every write succeeds, no exception. -/
def envSrvHappy : GenServer.Env :=
  { i2cAvailable := true
    busRead := fun i => if i = 0 then some 0 else some 3
    busWriteOk := fun _ => true
    raiseAt := none }

/-- Bus on which the input already reads the running signature 3. -/
def envSrvAlreadyRunning : GenServer.Env :=
  { i2cAvailable := true
    busRead := fun _ => some 3
    busWriteOk := fun _ => true
    raiseAt := none }

/-- An unexpected exception fires before action 4 (the 0.5 s sleep of the
ignition phase); the first two relay writes succeed but the third — the
handler's all-off write — fails on the bus. -/
def envSrvFaultBadBus : GenServer.Env :=
  { i2cAvailable := true
    busRead := fun _ => some 0
    busWriteOk := fun i => decide (i < 2)
    raiseAt := some 4 }

/-- Same exception point, but the handler's all-off write succeeds. -/
def envSrvFaultGoodBus : GenServer.Env :=
  { i2cAvailable := true
    busRead := fun _ => some 0
    busWriteOk := fun _ => true
    raiseAt := some 4 }

/-- A bus whose input read raises (the distinguished `-1` case). -/
def envSrvReadRaises : GenServer.Env :=
  { i2cAvailable := true
    busRead := fun _ => none
    busWriteOk := fun _ => true
    raiseAt := none }

/-! Helper lemmas. -/

/-- The debounce loop reports running exactly when some reading in its
window (of length `r`, starting at index `i`) said running. -/
lemma GenClient.debounce_loop_true_iff (f : Nat → Bool) :
    ∀ (r i : Nat),
      debounce_loop f i r = true ↔ ∃ j, j < r ∧ f (i + j) = true := by
  intro r
  induction r with
  | zero => intro i; simp [debounce_loop]
  | succ r ih =>
      intro i
      simp only [debounce_loop]
      by_cases h : f i = true
      · simp only [h, if_true, true_iff]
        exact ⟨0, Nat.succ_pos r, by simpa using h⟩
      · simp only [h, if_false, Bool.false_eq_true, ih (i + 1)]
        constructor
        · rintro ⟨j, hj, hf⟩
          refine ⟨j + 1, by omega, ?_⟩
          rwa [show i + (j + 1) = i + 1 + j by omega]
        · rintro ⟨j, hj, hf⟩
          match j, hj, hf with
          | 0, _, hf => exact absurd (by simpa using hf) h
          | j + 1, hj, hf =>
              exact ⟨j, by omega, by rwa [show i + 1 + j = i + (j + 1) by omega]⟩

/-- With at least one configured check, the debounced running check reports
running exactly when some reading among the `N` said running. -/
lemma GenClient.is_running_true_iff (N : Nat) (hN : 1 ≤ N) (f : Nat → Bool) :
    is_running N f = true ↔ ∃ j, j < N ∧ f j = true := by
  unfold is_running
  by_cases h0 : f 0 = true
  · simp only [h0, if_true, true_iff]
    exact ⟨0, by omega, h0⟩
  · simp only [h0, if_false, Bool.false_eq_true,
      GenClient.debounce_loop_true_iff f (N - 1) 1]
    constructor
    · rintro ⟨j, hj, hf⟩
      exact ⟨1 + j, by omega, hf⟩
    · rintro ⟨j, hj, hf⟩
      match j, hj, hf with
      | 0, _, hf => exact absurd hf h0
      | j + 1, hj, hf =>
          exact ⟨j, by omega, by rwa [show 1 + j = j + 1 by omega]⟩

/-- The start timeline has no return leaf carrying the exception result. -/
lemma GenServer.startProg_noExnRet : NoExnRet startProg := by
  simp only [startProg, NoExnRet]
  intro v
  split
  · simp [NoExnRet]
  · simp only [NoExnRet]
    intro v1
    split <;> simp [NoExnRet]

/-- When a run of a start-sequence command tree without exception leaves
ends in the exception result, the injected-fault handler ran last: the
final effect of the trace is an all-off relay write, and whenever that
write succeeded the stored relay state is 0. -/
lemma GenServer.runProg_exn (e : Env) :
    ∀ (p : Prog), NoExnRet p → ∀ a ri wi st tr,
      (runProg e p a ri wi st tr).1 = .errException →
      ∃ ok, ((runProg e p a ri wi st tr).2.2).getLast? = some (.write 0 ok)
        ∧ (ok = true →
            (runProg e p a ri wi st tr).2.1.current_relay_state = 0) := by
  intro p
  induction p with
  | ret r f =>
      intro hp a ri wi st tr h
      simp only [runProg] at h
      exact absurd h hp
  | write b k ih =>
      intro hp a ri wi st tr h
      by_cases hr : e.raiseAt = some a
      · simp only [runProg, hr, if_pos, handlerExit, set_relays] at h ⊢
        refine ⟨writeOkAt e wi, by simp, fun hok => ?_⟩
        simp [hok]
      · simp only [runProg, hr, if_false, set_relays] at h ⊢
        exact ih hp _ _ _ _ _ h
  | sleepMs n k ih =>
      intro hp a ri wi st tr h
      by_cases hr : e.raiseAt = some a
      · simp only [runProg, hr, if_pos, handlerExit, set_relays] at h ⊢
        refine ⟨writeOkAt e wi, by simp, fun hok => ?_⟩
        simp [hok]
      · simp only [runProg, hr, if_false] at h ⊢
        exact ih hp _ _ _ _ _ h
  | read k ih =>
      intro hp a ri wi st tr h
      by_cases hr : e.raiseAt = some a
      · simp only [runProg, hr, if_pos, handlerExit, set_relays] at h ⊢
        refine ⟨writeOkAt e wi, by simp, fun hok => ?_⟩
        simp [hok]
      · simp only [runProg, hr, if_false] at h ⊢
        exact ih _ (hp _) _ _ _ _ _ h

/-! Claim theorems. -/

/-- C6: the `RUNNING` flag reported by STATUS is recomputed from a fresh
input read on every query (it does not depend on the stored session state)
and is `YES` exactly when that read returns the value 3; in particular a
failed read, reported as the distinguished value `-1`, yields `NO`. -/
theorem c6_status_running_iff_input_three
    (e : GenServer.Env) (ri : Nat) (st st' : GenServer.SrvState) :
    ((GenServer.get_status e ri st).running = "YES"
      ↔ GenServer.read_inputs e ri = 3)
    ∧ (e.i2cAvailable = true → e.busRead ri = none →
        GenServer.read_inputs e ri = -1
        ∧ (GenServer.get_status e ri st).running = "NO")
    ∧ (GenServer.get_status e ri st).running
        = (GenServer.get_status e ri st').running := by
  refine ⟨?_, ?_, rfl⟩
  · by_cases h : GenServer.read_inputs e ri = 3 <;>
      simp [GenServer.get_status, h]
  · intro h1 h2
    simp [GenServer.get_status, GenServer.read_inputs, h1, h2]

/-- C6 witness: on a bus whose input read raises, STATUS reports `-1` as
the input value and `NO` for the running flag. -/
theorem c6_status_running_iff_input_three_witness :
    GenServer.read_inputs envSrvReadRaises 0 = -1
    ∧ (GenServer.get_status envSrvReadRaises 0 stSrvIdle).running = "NO" :=
  (c6_status_running_iff_input_three envSrvReadRaises 0 stSrvIdle
    stSrvIdle).2.1 rfl rfl

/-- C7: a START handled while a start is already in progress is rejected
with the in-progress error and an empty hardware trace (no read, no
write); a START whose initial input read already returns 3 is rejected
with the already-running error after that single read, with no relay
write in the trace. -/
theorem c7_start_guards_reject_without_hardware
    (e : GenServer.Env) (st : GenServer.SrvState) :
    (st.start_in_progress = true →
       GenServer.do_start_sequence e st
         = (.errAlreadyInProgress, st, []))
    ∧ (st.start_in_progress = false → e.raiseAt ≠ some 0 →
       GenServer.read_inputs e 0 = 3 →
       GenServer.do_start_sequence e st
         = (.errAlreadyRunning, st, [.read 3])) := by
  obtain ⟨r, g, s⟩ := st
  constructor
  · intro h
    cases h
    simp [GenServer.do_start_sequence]
  · intro h h0 h3
    cases h
    simp [GenServer.do_start_sequence, GenServer.runProg,
      GenServer.startProg, h0, h3]

/-- C7 witness: a busy session rejects START with no hardware effect, and
an input already reading 3 rejects START with only that read performed. -/
theorem c7_start_guards_reject_without_hardware_witness :
    GenServer.do_start_sequence envSrvHappy stSrvBusy
      = (.errAlreadyInProgress, stSrvBusy, [])
    ∧ GenServer.do_start_sequence envSrvAlreadyRunning stSrvIdle
      = (.errAlreadyRunning, stSrvIdle, [.read 3]) :=
  ⟨(c7_start_guards_reject_without_hardware envSrvHappy stSrvBusy).1 rfl,
   (c7_start_guards_reject_without_hardware envSrvAlreadyRunning
      stSrvIdle).2 rfl (by decide) rfl⟩

/-- C9: the STOP handler always returns `OK: Generator stopped` and clears
the cached running flag, even when the relay write fails; on a failed
write the stored relay byte keeps its previous value, because
`set_relays` updates it only on a successful write. -/
theorem c9_stop_always_ok_clears_running
    (e : GenServer.Env) (wi : Nat) (st : GenServer.SrvState) :
    (GenServer.do_stop e wi st).1 = "OK: Generator stopped"
    ∧ (GenServer.do_stop e wi st).2.1.generator_running = false
    ∧ (GenServer.do_stop e wi st).2.1.current_relay_state
        = (if GenServer.writeOkAt e wi then 0
           else st.current_relay_state) := by
  by_cases h : GenServer.writeOkAt e wi = true <;>
    simp [GenServer.do_stop, GenServer.set_relays, h]

/-- C8: once past both guards and with no fault injected, the start
sequence emits exactly the fixed timeline — all off 1 s, ignition 0.5 s,
ignition+starter 10 s, ignition+glow+starter 2 s, ignition 4 s — then one
input read; on reading 3 it sleeps 60 s and writes ignition+charger,
reporting success, and on any other value it writes all-off and reports
failure carrying the observed value. -/
theorem c8_start_sequence_fixed_timeline
    (e : GenServer.Env) (st : GenServer.SrvState)
    (hr : e.raiseAt = none) (hs : st.start_in_progress = false)
    (h0 : GenServer.read_inputs e 0 ≠ 3) :
    (GenServer.do_start_sequence e st).2.2
      = [.read (GenServer.read_inputs e 0),
         .write 0 (GenServer.writeOkAt e 0), .sleepMs 1000,
         .write 8 (GenServer.writeOkAt e 1), .sleepMs 500,
         .write 9 (GenServer.writeOkAt e 2), .sleepMs 10000,
         .write 13 (GenServer.writeOkAt e 3), .sleepMs 2000,
         .write 8 (GenServer.writeOkAt e 4), .sleepMs 4000,
         .read (GenServer.read_inputs e 1)]
        ++ (if GenServer.read_inputs e 1 = 3
            then [.sleepMs 60000, .write 10 (GenServer.writeOkAt e 5)]
            else [.write 0 (GenServer.writeOkAt e 5)])
    ∧ (GenServer.do_start_sequence e st).1
        = (if GenServer.read_inputs e 1 = 3 then .ok
           else .errFailedToStart (GenServer.read_inputs e 1)) := by
  obtain ⟨r, g, s⟩ := st
  cases hs
  by_cases h1 : GenServer.read_inputs e 1 = 3 <;>
    simp [GenServer.do_start_sequence, GenServer.runProg,
      GenServer.startProg, GenServer.set_relays, hr, h0, h1]

/-- C8 witness: on a healthy bus reading 0 then 3, the sequence emits the
full success timeline and reports success. -/
theorem c8_start_sequence_fixed_timeline_witness :
    (GenServer.do_start_sequence envSrvHappy stSrvIdle).2.2
      = [.read 0, .write 0 true, .sleepMs 1000, .write 8 true,
         .sleepMs 500, .write 9 true, .sleepMs 10000, .write 13 true,
         .sleepMs 2000, .write 8 true, .sleepMs 4000, .read 3,
         .sleepMs 60000, .write 10 true]
    ∧ (GenServer.do_start_sequence envSrvHappy stSrvIdle).1 = .ok := by
  obtain ⟨h1, h2⟩ := c8_start_sequence_fixed_timeline envSrvHappy stSrvIdle
    rfl rfl (by decide)
  exact ⟨h1.trans (by decide), h2.trans (by decide)⟩

/-- C2 counterexample: it is not true that every exception exit of the
start sequence leaves the stored relay state at 0 — with an exception
injected after the ignition write and a bus on which the handler's all-off
write fails, the sequence exits with the exception error while the stored
relay state is still the ignition byte 8. -/
theorem c2_fault_exit_all_off_counterexample :
    ¬ ∀ (e : GenServer.Env) (st : GenServer.SrvState),
        (GenServer.do_start_sequence e st).1 = .errException →
        (GenServer.do_start_sequence e st).2.1.current_relay_state = 0 := by
  intro h
  exact absurd (h envSrvFaultBadBus stSrvIdle (by decide)) (by decide)

/-- C2 (amended): on every exception exit of the start sequence the last
hardware effect is an all-off relay write issued before the failure is
returned, and whenever that write succeeds the final stored relay state
is 0 (the write itself can fail on the bus, leaving the previous relay
state in place). -/
theorem c2_fault_exit_issues_all_off_write
    (e : GenServer.Env) (st : GenServer.SrvState)
    (h : (GenServer.do_start_sequence e st).1 = .errException) :
    ∃ ok, ((GenServer.do_start_sequence e st).2.2).getLast?
            = some (.write 0 ok)
      ∧ (ok = true →
          (GenServer.do_start_sequence e st).2.1.current_relay_state = 0) := by
  by_cases hs : st.start_in_progress = true
  · simp [GenServer.do_start_sequence, hs] at h
  · simp only [GenServer.do_start_sequence, hs, if_false,
      Bool.not_eq_true] at h ⊢
    simp only [Bool.not_eq_true] at hs
    simp only [hs, Bool.false_eq_true, if_false]
    exact GenServer.runProg_exn e _ GenServer.startProg_noExnRet _ _ _ _ _
      (by simpa [hs] using h)

/-- C2 witness: with an exception injected after the ignition write on a
healthy bus, the exception exit ends in a successful all-off write and
the final relay state is 0. -/
theorem c2_fault_exit_issues_all_off_write_witness :
    (GenServer.do_start_sequence envSrvFaultGoodBus stSrvIdle).1
      = .errException
    ∧ ∃ ok,
        ((GenServer.do_start_sequence envSrvFaultGoodBus stSrvIdle).2.2).getLast?
          = some (.write 0 ok)
        ∧ (ok = true →
            (GenServer.do_start_sequence envSrvFaultGoodBus
              stSrvIdle).2.1.current_relay_state = 0) :=
  ⟨by decide,
   c2_fault_exit_issues_all_off_write envSrvFaultGoodBus stSrvIdle (by decide)⟩

/-- C5: for the debounced running check with `N ≥ 1` configured checks,
(i) `N-1` not-running readings followed by one running reading yield
`true`; (ii) `N` consecutive not-running readings yield `false`; (iii) a
running reading at any position yields `true` immediately, independently
of every later reading. -/
theorem c5_debounced_running_check (N : Nat) (f : Nat → Bool)
    (hN : 1 ≤ N) :
    ((∀ j, j < N - 1 → f j = false) → f (N - 1) = true →
       GenClient.is_running N f = true)
    ∧ ((∀ j, j < N → f j = false) → GenClient.is_running N f = false)
    ∧ (∀ (k : Nat) (g : Nat → Bool), k < N → f k = true →
         (∀ j, j < k → f j = false) → (∀ j, j ≤ k → g j = f j) →
         GenClient.is_running N g = true) := by
  refine ⟨?_, ?_, ?_⟩
  · intro _ hlast
    exact (GenClient.is_running_true_iff N hN f).2 ⟨N - 1, by omega, hlast⟩
  · intro hall
    cases hrun : GenClient.is_running N f with
    | false => rfl
    | true =>
        obtain ⟨j, hj, hf⟩ := (GenClient.is_running_true_iff N hN f).1 hrun
        rw [hall j hj] at hf
        exact absurd hf (by decide)
  · intro k g hk hfk _ hagree
    exact (GenClient.is_running_true_iff N hN g).2
      ⟨k, hk, (hagree k le_rfl).trans hfk⟩

/-- C5 witness at `N = 3`: two not-running readings then a running one
yield `true`; three not-running readings yield `false`; an immediate
running reading yields `true`. -/
theorem c5_debounced_running_check_witness :
    GenClient.is_running 3 (fun j => decide (j = 2)) = true
    ∧ GenClient.is_running 3 (fun _ => false) = false
    ∧ GenClient.is_running 3 (fun j => decide (j = 0)) = true := by
  refine ⟨?_, ?_, ?_⟩
  · exact (c5_debounced_running_check 3 (fun j => decide (j = 2))
      (by decide)).1 (by decide) (by decide)
  · exact (c5_debounced_running_check 3 (fun _ => false)
      (by decide)).2.1 (fun _ _ => rfl)
  · exact (c5_debounced_running_check 3 (fun j => decide (j = 0))
      (by decide)).2.2 0 (fun j => decide (j = 0)) (by decide) (by decide)
      (by omega) (fun _ _ => rfl)

/-- C1: evaluating the supervisor on the failing input.  With the default
configuration (`max_start_attempts = 3`), a failed start from IDLE with
the counter below the maximum returns to IDLE as the claim says; but on
the attempt at which the counter reaches 3 the supervisor enters the
legacy ERROR state — not ERROR_RECOVERY — and records no recovery-window
start timestamp. -/
theorem c1_idle_third_failure_enters_legacy_error :
    (Monitor.run_once cfgDefault envStartFails stOneFailure).1.state
      = .idle
    ∧ (Monitor.run_once cfgDefault envStartFails stTwoFailures).1
        = stLegacyError
    ∧ stLegacyError.state ≠ .errorRecovery
    ∧ stLegacyError.error_recovery_started_at = none := by
  refine ⟨rfl, ?_, by decide, rfl⟩
  decide

/-- C3: once the supervisor has reached the state produced by
`max_start_attempts` consecutive start failures (the legacy ERROR state),
`run_once` never changes the state and never issues any command — in
particular no START is attempted even after the configured error-recovery
wait has elapsed, so the counter and window are never reset. -/
theorem c3_error_state_never_retries
    (cfg : Monitor.Config) (e : Monitor.Env) (st : Monitor.MonState)
    (h : st.state = .error) :
    Monitor.run_once cfg e st = (st, []) := by
  unfold Monitor.run_once
  cases e.inverterData with
  | none => rfl
  | some soc => rw [h]

/-- C3 witness: far beyond the configured wait, with SOC still below the
start threshold, a supervisor in the post-failure state issues nothing
and stays put. -/
theorem c3_error_state_never_retries_witness :
    Monitor.run_once cfgDefault envMuchLater stLegacyError
      = (stLegacyError, []) :=
  c3_error_state_never_retries cfgDefault envMuchLater stLegacyError rfl

/-- C4: whenever the supervisor is RUNNING and the force-stop flag is
present at the start of a cycle — whatever the manual mode, the running
check, the SOC and the runtime say — that cycle issues STOP, removes the
force-stop file, and ends in IDLE with manual mode cleared. -/
theorem c4_force_stop_highest_priority
    (cfg : Monitor.Config) (e : Monitor.Env) (st : Monitor.MonState)
    (soc : Nat) (hs : st.state = .running)
    (hinv : e.inverterData = some soc) (hfs : e.force_stop = true) :
    Monitor.run_once cfg e st
      = ({ st with state := .idle, manual_mode := false,
                   generator_stopped_at := some e.now,
                   generator_started_at := none },
         [.stop, .removeForceStop]) := by
  obtain ⟨s, a, er, gsa, gso, m⟩ := st
  cases hs
  simp [Monitor.run_once, hinv, hfs, Monitor.stop_generator]

/-- C4 witness: in manual mode with the running check raising, SOC at
100 %, and the maximum runtime exceeded, the present force-stop flag still
wins: STOP and the flag removal are issued and the state becomes IDLE in
the same cycle. -/
theorem c4_force_stop_highest_priority_witness :
    Monitor.run_once cfgDefault envAllStopConds stRunningManual
      = ({ state := .idle, start_attempts := 0,
           error_recovery_started_at := none,
           generator_started_at := none,
           generator_stopped_at := some 999999, manual_mode := false },
         [.stop, .removeForceStop]) :=
  c4_force_stop_highest_priority cfgDefault envAllStopConds stRunningManual
    100 rfl rfl rfl

/-- C10: the supervisor's running check returns false whenever the client
query raises, and a RUNNING cycle (no force-stop, not in manual mode)
whose running query raises therefore issues a best-effort STOP and moves
to ERROR_RECOVERY, recording the recovery-window start, clearing the
start time and preserving the failure counter. -/
theorem c10_client_exception_drives_error_recovery
    (cfg : Monitor.Config) (e : Monitor.Env) (st : Monitor.MonState)
    (soc : Nat) (hs : st.state = .running)
    (hinv : e.inverterData = some soc) (hfs : e.force_stop = false)
    (hm : st.manual_mode = false) (hexn : e.isRunningResult = none) :
    Monitor.is_generator_running e = false
    ∧ Monitor.run_once cfg e st
        = ({ st with state := .errorRecovery,
                     error_recovery_started_at := some e.now,
                     generator_started_at := none, manual_mode := false },
           [.stop]) := by
  obtain ⟨s, a, er, gsa, gso, m⟩ := st
  cases hs
  cases hm
  constructor
  · simp [Monitor.is_generator_running, hexn]
  · simp [Monitor.run_once, Monitor.is_generator_running, hinv, hfs, hexn]

/-- C10 witness: a RUNNING supervisor with one prior failed attempt whose
running query raises ends the cycle in ERROR_RECOVERY with the counter
still 1, the window opened at the current time, and a STOP issued. -/
theorem c10_client_exception_drives_error_recovery_witness :
    Monitor.is_generator_running envRunningQueryRaises = false
    ∧ Monitor.run_once cfgDefault envRunningQueryRaises stRunningAuto
        = ({ state := .errorRecovery, start_attempts := 1,
             error_recovery_started_at := some 5000,
             generator_started_at := none, generator_stopped_at := none,
             manual_mode := false },
           [.stop]) :=
  c10_client_exception_drives_error_recovery cfgDefault
    envRunningQueryRaises stRunningAuto 50 rfl rfl rfl rfl rfl
